import Mathlib

/-!
Shallow embedding of `src/certbot/files/certbot_manager.py`.

The Python program is a long-running service loop: each cycle it resolves a
fixed hostname, checks for a CSV file of job rows, parses it with
`csv.DictReader(skipinitialspace=True)`, and for each row invokes the external
`certbot` tool via `subprocess.run(check=True)`, classifying the outcome.
A broad `except Exception` at the top of the `while True` body catches every
processing error and retries after `RETRY_DELAY` seconds; `SIGTERM`/`SIGINT`
handlers call `sys.exit(0)`.

Modelling decisions (each noted again at the definition it concerns):
  * The outside world seen by one cycle is an `Env` record of pure functions
    (filesystem queries, DNS lookup, file content, the tool's exit/stdout/
    stderr behaviour, and the arrival time of a termination signal).
  * Python exceptions are an explicit `PyExc` value threaded with `Except`.
    `SystemExit` (raised by `sys.exit`) is distinguished because
    `except Exception` does not catch it.
  * Machine-level details that no claim touches are simplified and documented:
    `str.lower` is modelled character-wise (ASCII), `str.strip` by
    `String.trim`, CSV quoting is not modelled (no claim involves quoted
    fields), and decorative bare `print` banners are not recorded - only the
    `log()` helper's lines are traced as `LogEvent`s.
  * Signal delivery is modelled at the sleep points (the blocking phase the
    spec and claims talk about): a signal arriving `t` seconds into a pending
    sleep runs `shutdown_handler`, whose `SystemExit` escapes the
    `except Exception` clause and terminates the process with code 0.
-/

namespace CertbotManager

/-- A line produced by the Python `log()` helper (lines 22-25): informational
lines go to stdout, error lines to stderr. Timestamps are not modelled. -/
inductive LogEvent where
  | info (msg : String)
  | error (msg : String)
deriving DecidableEq

/-- Python exception values relevant to the program. `exc` stands for any
`Exception` subclass other than `CalledProcessError` (gaierror, OSError,
KeyError, ...), carrying its message. `systemExit` is `SystemExit`, which is
NOT a subclass of `Exception` and therefore escapes `except Exception`. -/
inductive PyExc where
  | exc (msg : String)
  | calledProcessError (stderr : String)
  | systemExit (code : Nat)
deriving DecidableEq

/-- Whether `except Exception` catches this exception (true for everything
except `SystemExit`). -/
def isException : PyExc → Bool
  | .systemExit _ => false
  | _ => true

/-- The message interpolated by `log(f"... Runtime Exception: ...e...")` for a
caught exception (Python `str(e)`; modelled as the carried message). -/
def excMsg : PyExc → String
  | .exc m => m
  | .calledProcessError _ => "Command returned non-zero exit status"
  | .systemExit c => toString c

/-- Result of `subprocess.run(cmd, capture_output=True, text=True)`:
exit code, captured stdout and stderr (line 63). -/
structure ToolResult where
  exitCode : Nat
  stdout : String
  stderr : String
deriving DecidableEq

/-- The parsed command-line configuration (lines 29-37): `--csv` (required),
`--hook` (optional) and `--frequency` in minutes (default 60). -/
structure Config where
  csv : String
  hook : Option String
  frequency : Nat

/-- Line 18: `SECRETS_DIR = Path("/etc/letsencrypt/secrets")`. -/
def SECRETS_DIR : String := "/etc/letsencrypt/secrets"

/-- Line 19: `RETRY_DELAY = 60` seconds, the fixed short retry delay. -/
def RETRY_DELAY : Nat := 60

/-- The fixed hostname resolved at the start of every cycle (line 92). -/
def acmeHost : String := "acme-v02.api.letsencrypt.org"

/-- The environment one cycle of the service observes: pure snapshots of the
filesystem, DNS, the CSV file content, the external tool, and the arrival
time (seconds into the pending sleep) of a termination signal, if any.
`csvLines` is the content the `open`/read of the CSV yields, as lines, or the
raised I/O error; `runTool` is the external certbot process per the interface
contract (exit code, stdout, stderr). -/
structure Env where
  gethostbyname : String → Except String String
  pathExists : String → Bool
  isFile : String → Bool
  resolvePath : String → String
  csvLines : Except String (List String)
  runTool : List String → ToolResult
  signalAfter : Option Nat

/-- Python `str.lower()` modelled character-wise with `Char.toLower`
(faithful for the ASCII provider keys in scope). -/
def pyLower (s : String) : String := String.mk (s.data.map Char.toLower)

/-- Helper for `pySplit`: the accumulator holds the current field reversed. -/
def pySplitAux (sep : Char) : List Char → List Char → List String
  | [], acc => [String.mk acc.reverse]
  | x :: xs, acc =>
    if x = sep then String.mk acc.reverse :: pySplitAux sep xs []
    else pySplitAux sep xs (x :: acc)

/-- Python `s.split(sep)` for a one-character separator: splits at every
occurrence, yields `[""]` on the empty string, and keeps empty pieces.
(`String.splitOn` agrees but does not reduce in the kernel.) -/
def pySplit (s : String) (sep : Char) : List String := pySplitAux sep s.data []

/-- Python `str.strip()`: remove leading and trailing whitespace
(`Char.isWhitespace` models the Python whitespace class for the characters
in scope). -/
def pyStrip (s : String) : String :=
  String.mk
    (((s.data.dropWhile Char.isWhitespace).reverse.dropWhile
      Char.isWhitespace).reverse)

/-- Python substring membership `needle in hay` (for strings). -/
def containsSub (hay needle : String) : Bool :=
  (List.range (hay.data.length + 1)).any
    (fun i => needle.data.isPrefixOf (hay.data.drop i))

/-- Line 45: `plugin = "cloudflare" if "cloudflare" in provider_key.lower()
else "rfc2136"`. -/
def pluginFor (provider_key : String) : String :=
  if containsSub (pyLower provider_key) "cloudflare" then "cloudflare" else "rfc2136"

/-- Line 46: `creds_path = SECRETS_DIR / f"...provider_key....ini"`. -/
def credsPath (provider_key : String) : String :=
  SECRETS_DIR ++ "/" ++ provider_key ++ ".ini"

/-- The stdout marker checked on a successful run (line 64). -/
def markerNotYetDue : String := "Certificate not yet due"

/-- Lines 52-60: the certbot command line built for one job, with the
optional `--deploy-hook` pair appended exactly when a hook script was
resolved at startup. -/
def buildCmd (fqdn provider_key email : String) (hook_script : Option String) :
    List String :=
  let plugin := pluginFor provider_key
  let base := ["certbot", "certonly", "--non-interactive", "--agree-tos",
    "--email", email, "--dns-" ++ plugin,
    "--dns-" ++ plugin ++ "-credentials", credsPath provider_key,
    "--keep-until-expiring", "-d", fqdn]
  match hook_script with
  | some h => base ++ ["--deploy-hook", h ++ " " ++ fqdn]
  | none => base

/-- Per-job classification (spec `InvocationOutcome`, plus the
credentials-missing early return of lines 48-50). -/
inductive JobOutcome where
  | credentialsMissing
  | alreadyValid
  | issuedOrRenewed
  | failed (diagnostic : List String)
deriving DecidableEq

/-- What one `run_certbot` call did: its classification, the subprocess
command lines it actually executed, and the `log()` lines it emitted. -/
structure JobTrace where
  outcome : JobOutcome
  toolCalls : List (List String)
  logs : List LogEvent
deriving DecidableEq

/-- Line 63: `subprocess.run(cmd, ..., check=True)`. `check=True` raises
`CalledProcessError` (carrying the captured stderr) on a nonzero exit. -/
def subprocessRun (env : Env) (cmd : List String) : Except PyExc ToolResult :=
  let r := env.runTool cmd
  if r.exitCode = 0 then .ok r else .error (.calledProcessError r.stderr)

/-- Lines 40-75, `run_certbot`: resolve plugin and credential path; if the
credential file is absent, log and return (no tool invocation); otherwise run
the tool. The `except subprocess.CalledProcessError` clause turns a nonzero
exit into the Failed outcome with diagnostic `e.stderr.strip().split("\n")`
(stderr stripped of surrounding whitespace, then split on newlines). Since
`subprocessRun` only ever raises `CalledProcessError`, the catch clause is
exhaustive and the function is total, which is exactly the containment the
source exhibits. -/
def run_certbot (env : Env) (fqdn provider_key email : String)
    (hook_script : Option String) : JobTrace :=
  let creds_path := credsPath provider_key
  if env.pathExists creds_path = false then
    ⟨.credentialsMissing, [],
      [.error ("Missing credentials for " ++ fqdn ++ " at " ++ creds_path)]⟩
  else
    let cmd := buildCmd fqdn provider_key email hook_script
    match subprocessRun env cmd with
    | .ok r =>
        ⟨if containsSub r.stdout markerNotYetDue then .alreadyValid
          else .issuedOrRenewed, [cmd], []⟩
    | .error e =>
        ⟨.failed (pySplit (pyStrip (excStderr e)) (Char.ofNat 10)), [cmd],
          [.error ("Failed to process " ++ fqdn ++ "!")]⟩
where
  /-- The `stderr` attribute of the caught `CalledProcessError`. -/
  excStderr : PyExc → String
  | .calledProcessError s => s
  | .exc m => m
  | .systemExit c => toString c

/-- CPython csv: with `skipinitialspace=True`, space characters at the start
of every field are skipped (state START_FIELD of `_csv.c`). Only `" "` is
skipped, not tabs, and only leading ones - trailing whitespace stays. -/
def skipInitialSpaces : List Char → List Char
  | ' ' :: rest => skipInitialSpaces rest
  | cs => cs

/-- One CSV field value as `csv.reader(..., skipinitialspace=True)` yields
it. -/
def csvField (s : String) : String := String.mk (skipInitialSpaces s.data)

/-- One line of the CSV file split into field values. A blank line yields no
fields (Python csv gives `[]` for it); quoting is not modelled (no claim
involves quoted fields). -/
def parseCsvLine (line : String) : List String :=
  if line = "" then [] else (pySplit line ',').map csvField

/-- A row as `csv.DictReader` exposes it: column name to value. A row shorter
than the header pads missing columns with `None` (`restval`), and extra
values beyond the header are dropped (they land under `restkey`, which the
program never reads). -/
abbrev Row := List (String × Option String)

/-- Zip the header's field names with one data row's values, padding with
`none` as `DictReader` does. -/
def dictZip : List String → List String → Row
  | [], _ => []
  | k :: ks, [] => (k, none) :: dictZip ks []
  | k :: ks, v :: vs => (k, some v) :: dictZip ks vs

/-- Lookup `row[k]` on a `DictReader` row: `none` means the column name is absent
(Python `KeyError`); `some none` means the column exists but was padded with
`None`. Duplicate column names resolve to the last occurrence, as building a
`dict` from pairs does. -/
def rowGet (row : Row) (k : String) : Option (Option String) :=
  (row.reverse.find? (fun p => p.1 == k)).map (fun p => p.2)

/-- Lines 102-104: `csv.DictReader(f, skipinitialspace=True)` over the file's
lines. The first line (blank or not) supplies the field names; blank data
rows are skipped (`DictReader.__next__` discards `[]` rows). -/
def parseCsv (lines : List String) : List Row :=
  match lines.map parseCsvLine with
  | [] => []
  | header :: rest => (rest.filter (fun r => r ≠ [])).map (dictZip header)

/-- The three required fields of a row, when all are present and non-`None`
(in the access order of line 105). -/
def rowFields (row : Row) : Option (String × String × String) :=
  match rowGet row "fqdn", rowGet row "dns_provider", rowGet row "email" with
  | some (some f), some (some p), some (some e) => some (f, p, e)
  | _, _, _ => none

/-- A row supplying all three required columns with actual values. -/
def WellFormedRow (row : Row) : Prop := (rowFields row).isSome = true

instance (row : Row) : Decidable (WellFormedRow row) :=
  inferInstanceAs (Decidable ((rowFields row).isSome = true))

/-- Line 105 for one row: `run_certbot(row["fqdn"], row["dns_provider"],
row["email"], hook_script)`. A missing column raises `KeyError` at the
subscript; a padded `None` value raises (`AttributeError`/`TypeError`) inside
`run_certbot` before the tool can run. Both are uncaught exceptions raised by
this row before any tool invocation, modelled uniformly as raising at field
extraction. -/
def processRow (env : Env) (hook : Option String) (row : Row) :
    Except PyExc JobTrace :=
  match rowFields row with
  | some (f, p, e) => .ok (run_certbot env f p e hook)
  | none => .error (.exc "KeyError")

/-- What iterating the reader did: `result` is `.error e` when some row
raised (aborting the iteration there), and the traces accumulate what
happened up to that point. -/
structure BatchTrace where
  result : Except PyExc Unit
  outcomes : List JobOutcome
  toolCalls : List (List String)
  logs : List LogEvent

/-- Lines 104-105: the `for row in reader` loop, left to right; a raising row
aborts the remainder of the loop (the exception propagates to the cycle
boundary), while the rows before it were already processed. -/
def processRows (env : Env) (hook : Option String) : List Row → BatchTrace
  | [] => ⟨.ok (), [], [], []⟩
  | r :: rs =>
    match processRow env hook r with
    | .ok t =>
      let b := processRows env hook rs
      ⟨b.result, t.outcome :: b.outcomes, t.toolCalls ++ b.toolCalls,
        t.logs ++ b.logs⟩
    | .error e => ⟨.error e, [], [], []⟩

/-- How a cycle body ended when no exception escaped it. -/
inductive CycleEnd where
  | sourceMissing
  | completed
deriving DecidableEq

/-- Everything one execution of the `try` body (lines 89-109, up to but not
including the sleeps) did. -/
structure CycleTrace where
  result : Except PyExc CycleEnd
  outcomes : List JobOutcome
  toolCalls : List (List String)
  logs : List LogEvent

/-- The cycle-start `log()` line (line 90). -/
def cycleStartLog (frequency : Nat) : LogEvent :=
  .info ("STARTING PROCESSING CYCLE (Freq: " ++ toString frequency ++ "m)")

/-- The missing-CSV `log()` line (line 96). -/
def csvMissingLog (csv : String) : LogEvent :=
  .error ("CSV file " ++ csv ++ " missing!")

/-- Python `Path(p).name`: the final path component (line 100 logs it). -/
def pathName (p : String) : String :=
  ((((pySplit p '/').filter (fun s => s ≠ "")).getLast?).getD "")

/-- Lines 89-109, the body of the `try` block: resolve the fixed hostname
(its result is only truth-tested then discarded; a resolution failure raises
`gaierror`); check the CSV path, logging and ending the cycle early when it
is missing; otherwise open and parse the CSV and run every row. An `.error`
result is an exception escaping the body to the `except` clause. -/
def cycleBody (env : Env) (cfg : Config) (hook : Option String) : CycleTrace :=
  let l0 := [cycleStartLog cfg.frequency]
  match env.gethostbyname acmeHost with
  | .error m => ⟨.error (.exc m), [], [], l0⟩
  | .ok _ip =>
    if env.pathExists cfg.csv = false then
      ⟨.ok .sourceMissing, [], [], l0 ++ [csvMissingLog cfg.csv]⟩
    else
      let l1 := l0 ++ [.info ("Reading: " ++ pathName cfg.csv)]
      match env.csvLines with
      | .error m => ⟨.error (.exc m), [], [], l1⟩
      | .ok lines =>
        let b := processRows env hook (parseCsv lines)
        match b.result with
        | .ok _ =>
          ⟨.ok .completed, b.outcomes, b.toolCalls,
            l1 ++ b.logs ++ [.info ("Cycle complete. Sleeping for " ++
              toString cfg.frequency ++ " minutes.")]⟩
        | .error e => ⟨.error e, b.outcomes, b.toolCalls, l1 ++ b.logs⟩

/-- The sleep the cycle schedules on its normal endings: `RETRY_DELAY` after
a missing CSV (line 97), `frequency * 60` seconds after a complete cycle
(line 109). -/
def sleepSecondsFor (cfg : Config) : CycleEnd → Nat
  | .sourceMissing => RETRY_DELAY
  | .completed => cfg.frequency * 60

/-- The shutdown `log()` line of `shutdown_handler` (lines 116-119), which
then calls `sys.exit(0)`. -/
def shutdownLogEvent : LogEvent :=
  .info ("Service termination received. Goodbye!")

/-- The observable result of one iteration of the `while True` loop:
`exited = some code` when the process terminated during it, the seconds
actually slept, and the job outcomes, tool invocations and `log()` lines of
the iteration. -/
structure StepResult where
  exited : Option Nat
  slept : Nat
  outcomes : List JobOutcome
  toolCalls : List (List String)
  logs : List LogEvent
deriving DecidableEq

/-- Sleeping `time.sleep(pending)` with the installed signal handlers: a signal
arriving `t` seconds in (with `t < pending`) interrupts the sleep, runs
`shutdown_handler` (log line, then `SystemExit 0`), and the `SystemExit`
escapes `except Exception`, terminating the process with code 0. With no
signal (or one arriving after the sleep ends) the sleep completes. -/
def finishSleep (env : Env) (pending : Nat) (outs : List JobOutcome)
    (calls : List (List String)) (logs : List LogEvent) : StepResult :=
  match env.signalAfter with
  | some t =>
    if t < pending then ⟨some 0, t, outs, calls, logs ++ [shutdownLogEvent]⟩
    else ⟨none, pending, outs, calls, logs⟩
  | none => ⟨none, pending, outs, calls, logs⟩

/-- The exit code `sys.exit` receives when a `SystemExit` escapes. -/
def sysCode : PyExc → Nat
  | .systemExit c => c
  | _ => 0

/-- The dispatch on the cycle body's ending shared by `loopStep` and
`pendingSleep`: on a normal ending sleep the scheduled time; on a caught
`Exception` log the runtime-exception line and sleep `RETRY_DELAY`
(lines 111-113); a `SystemExit` is not caught and exits the process. -/
def loopStepAux (env : Env) (cfg : Config) (tr : CycleTrace) : StepResult :=
  match tr.result with
  | .ok e =>
    finishSleep env (sleepSecondsFor cfg e) tr.outcomes tr.toolCalls tr.logs
  | .error ex =>
    if isException ex then
      finishSleep env RETRY_DELAY tr.outcomes tr.toolCalls
        (tr.logs ++ [.error ("Runtime Exception: " ++ excMsg ex)])
    else
      ⟨some (sysCode ex), 0, tr.outcomes, tr.toolCalls, tr.logs⟩

/-- One iteration of `main_service`'s `while True` loop (lines 87-113). -/
def loopStep (env : Env) (cfg : Config) (hook : Option String) : StepResult :=
  loopStepAux env cfg (cycleBody env cfg hook)

/-- The sleep the trace `tr` schedules if uninterrupted. -/
def pendingSleepAux (cfg : Config) (tr : CycleTrace) : Nat :=
  match tr.result with
  | .ok e => sleepSecondsFor cfg e
  | .error ex => if isException ex then RETRY_DELAY else 0

/-- The sleep one iteration would perform if uninterrupted. -/
def pendingSleep (env : Env) (cfg : Config) (hook : Option String) : Nat :=
  pendingSleepAux cfg (cycleBody env cfg hook)

/-- Lines 80-85: the hook script is resolved once at startup. `if args.hook:`
is Python truthiness (`None` or the empty string fail it); a supplied path
must exist and be a regular file, and is then canonicalised with
`Path.resolve()`. -/
def resolveHook (env : Env) (cfg : Config) : Option String :=
  match cfg.hook with
  | none => none
  | some h =>
    if h = "" then none
    else if env.pathExists h && env.isFile h then some (env.resolvePath h)
    else none

/-- The service loop, driven by one `Env` snapshot per cycle (the loop is
infinite in the source; a run observed for finitely many cycles is a list of
snapshots). The hook is resolved once, against the startup environment, and
the loop stops exactly when an iteration exits the process. -/
def main_service (cfg : Config) (env0 : Env) : List Env → List StepResult
  | [] => []
  | e :: es =>
    match (loopStep e cfg (resolveHook env0 cfg)).exited with
    | some _ => [loopStep e cfg (resolveHook env0 cfg)]
    | none => loopStep e cfg (resolveHook env0 cfg) :: main_service cfg env0 es

/-- The classification of one well-formed row, as a total function of the
row and the environment alone (the `.ok` projection of `processRow`; the
junk value in the malformed branch is never reached under `WellFormedRow`).
Used to state that each row's outcome depends only on its own row. -/
def rowRun (env : Env) (hook : Option String) (row : Row) : JobTrace :=
  match rowFields row with
  | some (f, p, e) => run_certbot env f p e hook
  | none => ⟨.failed [], [], []⟩

/-- The claim wording for the Failed diagnostic, read literally: the tool's
stderr "split into lines", with no stripping. Stated only to compare with
the source's `e.stderr.strip().split("\n")`. -/
def specStderrLines (stderr : String) : List String :=
  pySplit stderr (Char.ofNat 10)

/-- A cycle environment where everything works: DNS resolves, every path
exists, the CSV holds one well-formed row, and the tool succeeds. -/
def envAllOk : Env where
  gethostbyname := fun _ => .ok "172.65.32.248"
  pathExists := fun _ => true
  isFile := fun _ => true
  resolvePath := fun s => s
  csvLines := .ok ["fqdn,dns_provider,email", "a.example.com,cf,bob@example.com"]
  runTool := fun _ => ⟨0, "Successfully received certificate", ""⟩
  signalAfter := none

/-- Like `envAllOk` but the tool exits 1 with stderr `" boom"` (leading
space, no trailing newline). -/
def envToolFails : Env where
  gethostbyname := fun _ => .ok "172.65.32.248"
  pathExists := fun _ => true
  isFile := fun _ => true
  resolvePath := fun s => s
  csvLines := .ok ["fqdn,dns_provider,email", "a.example.com,cf,bob@example.com"]
  runTool := fun _ => ⟨1, "", " boom"⟩
  signalAfter := none

/-- A cycle environment where DNS resolution raises `gaierror`. -/
def envDnsDown : Env where
  gethostbyname := fun _ => .error "gaierror"
  pathExists := fun _ => true
  isFile := fun _ => true
  resolvePath := fun s => s
  csvLines := .ok ["fqdn,dns_provider,email", "a.example.com,cf,bob@example.com"]
  runTool := fun _ => ⟨0, "", ""⟩
  signalAfter := none

/-- A cycle environment where no path exists (in particular the CSV file). -/
def envNoCsv : Env where
  gethostbyname := fun _ => .ok "172.65.32.248"
  pathExists := fun _ => false
  isFile := fun _ => false
  resolvePath := fun s => s
  csvLines := .error "FileNotFoundError"
  runTool := fun _ => ⟨0, "", ""⟩
  signalAfter := none

/-- A cycle environment where the CSV exists but no credential file does. -/
def envNoCreds : Env where
  gethostbyname := fun _ => .ok "172.65.32.248"
  pathExists := fun s => s == "/tmp/jobs.csv"
  isFile := fun s => s == "/tmp/jobs.csv"
  resolvePath := fun s => s
  csvLines := .ok ["fqdn,dns_provider,email", "a.example.com,cf,bob@example.com"]
  runTool := fun _ => ⟨0, "", ""⟩
  signalAfter := none

/-- Like `envAllOk` but a termination signal arrives 5 seconds into the
pending sleep. -/
def envSignal : Env where
  gethostbyname := fun _ => .ok "172.65.32.248"
  pathExists := fun _ => true
  isFile := fun _ => true
  resolvePath := fun s => s
  csvLines := .ok ["fqdn,dns_provider,email", "a.example.com,cf,bob@example.com"]
  runTool := fun _ => ⟨0, "Certificate not yet due for renewal", ""⟩
  signalAfter := some 5

/-- The configuration used by the concrete witnesses: required CSV path, no
hook, default frequency. -/
def cfgW : Config := ⟨"/tmp/jobs.csv", none, 60⟩

/-- A configuration supplying a hook path. -/
def cfgHook : Config := ⟨"/tmp/jobs.csv", some "/opt/deploy.sh", 60⟩

/-! ### Helper lemmas -/

theorem mk_data (cs : List Char) : (String.mk cs).data = cs := rfl

/-- Python `needle in s.lower()` holds exactly when some contiguous segment
of `s` lowercases to `needle`. -/
theorem containsSub_pyLower_iff (s t : String) :
    containsSub (pyLower s) t = true ↔
      ∃ pre mid post : List Char,
        s.data = pre ++ mid ++ post ∧ mid.map Char.toLower = t.data := by
  unfold containsSub pyLower
  rw [List.any_eq_true]
  constructor
  · rintro ⟨i, hmem, hpref⟩
    rw [ List.isPrefixOf_iff_prefix] at hpref
    obtain ⟨u, hu⟩ := hpref
    rw [mk_data] at hu
    refine ⟨s.data.take i, (s.data.drop i).take t.data.length,
      (s.data.drop i).drop t.data.length, ?_, ?_⟩
    · rw [List.append_assoc, List.take_append_drop, List.take_append_drop]
    · rw [List.map_take, List.map_drop, ← hu, List.take_left]
  · rintro ⟨pre, mid, post, h1, h2⟩
    refine ⟨pre.length, ?_, ?_⟩
    · rw [List.mem_range, mk_data]
      have hle : pre.length ≤ s.data.length := by
        rw [h1]
        simp [List.length_append]
      have hml : (s.data.map Char.toLower).length = s.data.length := by simp
      omega
    · rw [ List.isPrefixOf_iff_prefix, mk_data, h1, List.map_append,
        List.map_append]
      have hlen : pre.length = (pre.map Char.toLower).length := by
        simp
      rw [List.append_assoc, hlen, List.drop_left, h2]
      exact List.prefix_append t.data (post.map Char.toLower)

/-- The plugin selection, characterised by case-insensitive occurrence. -/
theorem pluginFor_eq_cloudflare_iff (pk : String) :
    pluginFor pk = "cloudflare" ↔
      ∃ pre mid post : List Char,
        pk.data = pre ++ mid ++ post ∧
          mid.map Char.toLower = "cloudflare".data := by
  rw [← containsSub_pyLower_iff]
  unfold pluginFor
  by_cases h : containsSub (pyLower pk) "cloudflare" = true
  · simp [h]
  · simp [h]

/-- Running `run_certbot` on a job whose credential file is missing: the fixed
outcome, no tool invocation, one error log line. -/
theorem run_certbot_credsMissing (env : Env) (f p e : String)
    (hook : Option String) (h : env.pathExists (credsPath p) = false) :
    run_certbot env f p e hook =
      ⟨.credentialsMissing, [],
        [.error ("Missing credentials for " ++ f ++ " at " ++ credsPath p)]⟩ := by
  simp [run_certbot, h]

/-- Every command `run_certbot` executes is the command it builds for its
own arguments. -/
theorem run_certbot_toolCalls (env : Env) (f p e : String)
    (hook : Option String) :
    ∀ cmd ∈ (run_certbot env f p e hook).toolCalls,
      cmd = buildCmd f p e hook := by
  intro cmd hmem
  by_cases h : env.pathExists (credsPath p) = false
  · rw [run_certbot_credsMissing env f p e hook h] at hmem
    simp at hmem
  · cases hsub : subprocessRun env (buildCmd f p e hook) with
    | ok r =>
      simp [run_certbot, h, hsub] at hmem
      exact hmem
    | error ex =>
      simp [run_certbot, h, hsub] at hmem
      exact hmem

/-- Unfolding `processRows` over a well-formed head row. -/
theorem processRows_cons_wf (env : Env) (hook : Option String) (r : Row)
    (rs : List Row) (f p e : String) (h : rowFields r = some (f, p, e)) :
    processRows env hook (r :: rs) =
      ⟨(processRows env hook rs).result,
        (run_certbot env f p e hook).outcome ::
          (processRows env hook rs).outcomes,
        (run_certbot env f p e hook).toolCalls ++
          (processRows env hook rs).toolCalls,
        (run_certbot env f p e hook).logs ++
          (processRows env hook rs).logs⟩ := by
  simp [processRows, processRow, h]

/-- On a list of well-formed rows the batch raises nothing and classifies
each row independently, in order. -/
theorem processRows_wf (env : Env) (hook : Option String) (rows : List Row)
    (h : ∀ r ∈ rows, WellFormedRow r) :
    (processRows env hook rows).result = .ok () ∧
      (processRows env hook rows).outcomes =
        rows.map (fun r => (rowRun env hook r).outcome) := by
  induction rows with
  | nil => exact ⟨rfl, rfl⟩
  | cons r rs ih =>
    have hr : WellFormedRow r := h r (by simp)
    obtain ⟨⟨f, p, e⟩, hf⟩ := Option.isSome_iff_exists.mp hr
    have ihr := ih (fun x hx => h x (by simp [hx]))
    rw [processRows_cons_wf env hook r rs f p e hf]
    refine ⟨ihr.1, ?_⟩
    simp [rowRun, hf, ihr.2]

/-- Any exception escaping the batch is a plain `Exception` (a `KeyError`
from a malformed row), never a `SystemExit`. -/
theorem processRows_error_exc (env : Env) (hook : Option String)
    (rows : List Row) (ex : PyExc)
    (h : (processRows env hook rows).result = .error ex) :
    ex = .exc "KeyError" := by
  induction rows with
  | nil => simp [processRows] at h
  | cons r rs ih =>
    cases hpr : processRow env hook r with
    | ok t =>
      simp only [processRows, hpr] at h
      exact ih h
    | error e' =>
      simp only [processRows, hpr] at h
      rcases hf : rowFields r with _ | v
      · simp [processRow, hf] at hpr
        rw [← hpr] at h
        simpa using h.symm
      · simp [processRow, hf] at hpr

/-- Every command the batch executes was built for some row's fields. -/
theorem processRows_toolCalls_mem (env : Env) (hook : Option String)
    (rows : List Row) (cmd : List String)
    (h : cmd ∈ (processRows env hook rows).toolCalls) :
    ∃ f p e, cmd = buildCmd f p e hook := by
  induction rows with
  | nil => simp [processRows] at h
  | cons r rs ih =>
    cases hpr : processRow env hook r with
    | ok t =>
      simp only [processRows, hpr] at h
      rcases List.mem_append.mp h with hl | hr
      · rcases hf : rowFields r with _ | ⟨⟨f, p, e⟩⟩
        · simp [processRow, hf] at hpr
        · simp [processRow, hf] at hpr
          rw [← hpr] at hl
          exact ⟨f, p, e, run_certbot_toolCalls env f p e hook cmd hl⟩
      · exact ih hr
    | error e' =>
      simp only [processRows, hpr] at h
      simp at h

/-- Any exception escaping the cycle body is a plain `Exception` (never a
`SystemExit`): `except Exception` catches it. -/
theorem cycleBody_error_exc (env : Env) (cfg : Config) (hook : Option String)
    (ex : PyExc) (h : (cycleBody env cfg hook).result = .error ex) :
    ∃ m, ex = .exc m := by
  unfold cycleBody at h
  cases hd : env.gethostbyname acmeHost with
  | error m =>
    simp [hd] at h
    exact ⟨m, h.symm⟩
  | ok ip =>
    rw [hd] at h
    by_cases hc : env.pathExists cfg.csv = false
    · simp [hc] at h
    · simp only [hc, if_false, ite_false] at h
      cases hl : env.csvLines with
      | error m =>
        simp [hl] at h
        exact ⟨m, h.symm⟩
      | ok lines =>
        simp only [hl] at h
        cases hb : (processRows env hook (parseCsv lines)).result with
        | ok u =>
          simp [hb] at h
        | error e' =>
          simp [hb] at h
          have hk := processRows_error_exc env hook (parseCsv lines) e' hb
          exact ⟨"KeyError", by rw [← h, hk]⟩

/-- Every command a cycle executes was built for some row's fields with the
cycle's hook argument. -/
theorem cycleBody_toolCalls_mem (env : Env) (cfg : Config)
    (hook : Option String) (cmd : List String)
    (h : cmd ∈ (cycleBody env cfg hook).toolCalls) :
    ∃ f p e, cmd = buildCmd f p e hook := by
  unfold cycleBody at h
  cases hd : env.gethostbyname acmeHost with
  | error m => simp [hd] at h
  | ok ip =>
    rw [hd] at h
    by_cases hc : env.pathExists cfg.csv = false
    · simp [hc] at h
    · simp only [hc, if_false, ite_false] at h
      cases hl : env.csvLines with
      | error m => simp [hl] at h
      | ok lines =>
        simp only [hl] at h
        cases hb : (processRows env hook (parseCsv lines)).result with
        | ok u =>
          simp only [hb] at h
          exact processRows_toolCalls_mem env hook _ cmd h
        | error e' =>
          simp only [hb] at h
          exact processRows_toolCalls_mem env hook _ cmd h

/-- The function `finishSleep` only repackages the cycle trace. -/
theorem finishSleep_proj (env : Env) (pending : Nat) (outs : List JobOutcome)
    (calls : List (List String)) (logs : List LogEvent) :
    (finishSleep env pending outs calls logs).outcomes = outs ∧
      (finishSleep env pending outs calls logs).toolCalls = calls ∧
      logs ⊆ (finishSleep env pending outs calls logs).logs := by
  unfold finishSleep
  cases env.signalAfter with
  | none => exact ⟨rfl, rfl, fun x hx => hx⟩
  | some t =>
    by_cases hlt : t < pending
    · simp [hlt]
    · simp [hlt]

/-- With no signal pending, `finishSleep` completes the sleep and the
process continues. -/
theorem finishSleep_no_signal (env : Env) (pending : Nat)
    (outs : List JobOutcome) (calls : List (List String))
    (logs : List LogEvent) (h : env.signalAfter = none) :
    finishSleep env pending outs calls logs =
      ⟨none, pending, outs, calls, logs⟩ := by
  simp [finishSleep, h]

/-- With a signal arriving strictly inside the pending sleep, `finishSleep`
exits with code 0 after `t` seconds, appending the shutdown log line. -/
theorem finishSleep_signal (env : Env) (pending t : Nat)
    (outs : List JobOutcome) (calls : List (List String))
    (logs : List LogEvent) (h : env.signalAfter = some t)
    (hlt : t < pending) :
    finishSleep env pending outs calls logs =
      ⟨some 0, t, outs, calls, logs ++ [shutdownLogEvent]⟩ := by
  simp [finishSleep, h, hlt]

/-- One loop iteration executes exactly the cycle body's tool commands. -/
theorem loopStepAux_toolCalls (env : Env) (cfg : Config) (tr : CycleTrace) :
    (loopStepAux env cfg tr).toolCalls = tr.toolCalls := by
  cases tr with
  | mk res outs calls logs =>
    cases res with
    | ok e => exact (finishSleep_proj env _ _ _ _).2.1
    | error ex =>
      simp only [loopStepAux]
      by_cases hexc : isException ex = true
      · rw [if_pos hexc]
        exact (finishSleep_proj env _ _ _ _).2.1
      · rw [if_neg hexc]

/-- One loop iteration reports exactly the cycle body's outcomes. -/
theorem loopStepAux_outcomes (env : Env) (cfg : Config) (tr : CycleTrace) :
    (loopStepAux env cfg tr).outcomes = tr.outcomes := by
  cases tr with
  | mk res outs calls logs =>
    cases res with
    | ok e => exact (finishSleep_proj env _ _ _ _).1
    | error ex =>
      simp only [loopStepAux]
      by_cases hexc : isException ex = true
      · rw [if_pos hexc]
        exact (finishSleep_proj env _ _ _ _).1
      · rw [if_neg hexc]

/-- Without a signal, a loop iteration never exits the process, provided
no `SystemExit` escaped the body (which `cycleBody_error_exc` rules out). -/
theorem loopStepAux_no_signal_no_exit (env : Env) (cfg : Config)
    (tr : CycleTrace) (h : env.signalAfter = none)
    (hexc : ∀ ex, tr.result = .error ex → ∃ m, ex = .exc m) :
    (loopStepAux env cfg tr).exited = none := by
  cases tr with
  | mk res outs calls logs =>
    cases res with
    | ok e =>
      simp only [loopStepAux]
      rw [finishSleep_no_signal env _ _ _ _ h]
    | error ex =>
      obtain ⟨m, rfl⟩ := hexc ex rfl
      simp only [loopStepAux, isException, if_true]
      rw [finishSleep_no_signal env _ _ _ _ h]

/-- Without a signal, a loop iteration never exits the process. -/
theorem loopStep_no_signal_no_exit (env : Env) (cfg : Config)
    (hook : Option String) (h : env.signalAfter = none) :
    (loopStep env cfg hook).exited = none :=
  loopStepAux_no_signal_no_exit env cfg (cycleBody env cfg hook) h
    (cycleBody_error_exc env cfg hook)

/-- An iteration that exits does so with code 0, only because a signal
arrived strictly inside the pending sleep (given no `SystemExit` escaped
the body). -/
theorem loopStepAux_exit_characterisation (env : Env) (cfg : Config)
    (tr : CycleTrace) (c : Nat)
    (hexc : ∀ ex, tr.result = .error ex → ∃ m, ex = .exc m)
    (h : (loopStepAux env cfg tr).exited = some c) :
    c = 0 ∧ ∃ t, env.signalAfter = some t ∧ t < pendingSleepAux cfg tr := by
  cases hsig : env.signalAfter with
  | none =>
    rw [loopStepAux_no_signal_no_exit env cfg tr hsig hexc] at h
    cases h
  | some t =>
    cases tr with
    | mk res outs calls logs =>
      cases res with
      | ok e =>
        simp only [loopStepAux] at h
        by_cases hlt : t < sleepSecondsFor cfg e
        · rw [finishSleep_signal env _ t _ _ _ hsig hlt] at h
          have hc : c = 0 := by simpa using h.symm
          subst hc
          exact ⟨rfl, t, rfl, by simpa [pendingSleepAux] using hlt⟩
        · simp [finishSleep, hsig, hlt] at h
      | error ex =>
        obtain ⟨m, rfl⟩ := hexc ex rfl
        simp only [loopStepAux, isException, if_true] at h
        by_cases hlt : t < RETRY_DELAY
        · rw [finishSleep_signal env _ t _ _ _ hsig hlt] at h
          have hc : c = 0 := by simpa using h.symm
          subst hc
          exact ⟨rfl, t, rfl,
            by simpa [pendingSleepAux, isException] using hlt⟩
        · simp [finishSleep, hsig, hlt] at h

/-- A signal arriving strictly inside the pending sleep makes the iteration
exit with code 0 after exactly `t` seconds, logging the shutdown message. -/
theorem loopStepAux_signal_interrupt (env : Env) (cfg : Config)
    (tr : CycleTrace) (t : Nat) (hsig : env.signalAfter = some t)
    (hexc : ∀ ex, tr.result = .error ex → ∃ m, ex = .exc m)
    (hlt : t < pendingSleepAux cfg tr) :
    (loopStepAux env cfg tr).exited = some 0 ∧
      (loopStepAux env cfg tr).slept = t ∧
      shutdownLogEvent ∈ (loopStepAux env cfg tr).logs := by
  cases tr with
  | mk res outs calls logs =>
    cases res with
    | ok e =>
      replace hlt : t < sleepSecondsFor cfg e := by
        simpa [pendingSleepAux] using hlt
      simp only [loopStepAux]
      rw [finishSleep_signal env _ t _ _ _ hsig hlt]
      exact ⟨rfl, rfl, by simp⟩
    | error ex =>
      obtain ⟨m, rfl⟩ := hexc ex rfl
      replace hlt : t < RETRY_DELAY := by
        simpa [pendingSleepAux, isException] using hlt
      simp only [loopStepAux, isException, if_true]
      rw [finishSleep_signal env _ t _ _ _ hsig hlt]
      exact ⟨rfl, rfl, by simp⟩

/-- Every step of an observed run is one loop iteration with the hook
resolved at startup. -/
theorem main_service_mem (cfg : Config) (env0 : Env) (envs : List Env)
    (r : StepResult) (h : r ∈ main_service cfg env0 envs) :
    ∃ e, r = loopStep e cfg (resolveHook env0 cfg) := by
  induction envs with
  | nil => simp [main_service] at h
  | cons e es ih =>
    unfold main_service at h
    cases hex : (loopStep e cfg (resolveHook env0 cfg)).exited with
    | some c =>
      rw [hex] at h
      simp at h
      exact ⟨e, h⟩
    | none =>
      rw [hex] at h
      rcases List.mem_cons.mp h with h1 | h2
      · exact ⟨e, h1⟩
      · exact ih h2

/-- One loop iteration executes exactly the cycle body's tool commands
(stated on `loopStep`). -/
theorem loopStep_toolCalls (env : Env) (cfg : Config) (hook : Option String) :
    (loopStep env cfg hook).toolCalls = (cycleBody env cfg hook).toolCalls :=
  loopStepAux_toolCalls env cfg (cycleBody env cfg hook)

/-- With no signal, an iteration whose body ended normally sleeps the
scheduled time and continues, reporting the body's trace unchanged. -/
theorem loopStepAux_ok_no_signal (env : Env) (cfg : Config) (tr : CycleTrace)
    (e : CycleEnd) (hres : tr.result = .ok e)
    (hsig : env.signalAfter = none) :
    loopStepAux env cfg tr =
      ⟨none, sleepSecondsFor cfg e, tr.outcomes, tr.toolCalls, tr.logs⟩ := by
  cases tr with
  | mk res outs calls logs =>
    cases res with
    | ok e' =>
      cases hres
      simp only [loopStepAux]
      rw [finishSleep_no_signal env _ _ _ _ hsig]
    | error ex => cases hres

/-- With no signal, an iteration whose body raised a caught exception logs
the runtime-exception line and sleeps `RETRY_DELAY`. -/
theorem loopStepAux_error_no_signal (env : Env) (cfg : Config)
    (tr : CycleTrace) (ex : PyExc) (hres : tr.result = .error ex)
    (hexc : isException ex = true) (hsig : env.signalAfter = none) :
    loopStepAux env cfg tr =
      ⟨none, RETRY_DELAY, tr.outcomes, tr.toolCalls,
        tr.logs ++ [.error ("Runtime Exception: " ++ excMsg ex)]⟩ := by
  cases tr with
  | mk res outs calls logs =>
    cases res with
    | ok e' => cases hres
    | error ex' =>
      cases hres
      simp only [loopStepAux]
      rw [if_pos hexc]
      rw [finishSleep_no_signal env _ _ _ _ hsig]

/-- The hook command line is the plain command line with the deploy-hook
pair appended. -/
theorem buildCmd_some (f p e h : String) :
    buildCmd f p e (some h) =
      buildCmd f p e none ++ ["--deploy-hook", h ++ " " ++ f] := by
  simp [buildCmd]

/-- The hookless command line, with its final domain pair split off. -/
theorem buildCmd_none_eq (f p e : String) :
    buildCmd f p e none =
      ["certbot", "certonly", "--non-interactive", "--agree-tos",
        "--email", e, "--dns-" ++ pluginFor p,
        "--dns-" ++ pluginFor p ++ "-credentials", credsPath p,
        "--keep-until-expiring"] ++ ["-d", f] := by
  simp [buildCmd]

/-- A command built without a hook never ends in a deploy-hook pair:
no invocation carries a deploy-hook argument. -/
theorem buildCmd_none_no_deploy (f p e x : String) :
    ¬ List.IsSuffix ["--deploy-hook", x] (buildCmd f p e none) := by
  rintro ⟨u, hu⟩
  rw [buildCmd_none_eq] at hu
  have hlen : (["--deploy-hook", x] : List String).length =
      (["-d", f] : List String).length := rfl
  obtain ⟨h1, h2⟩ := List.append_inj' hu hlen
  simp at h2

/-- A hook that is unsupplied, empty, missing, or not a regular file at
startup resolves to no hook script. -/
theorem resolveHook_not_verified (env : Env) (cfg : Config) (h : String)
    (hc : cfg.hook = some h)
    (hnv : env.pathExists h = false ∨ env.isFile h = false) :
    resolveHook env cfg = none := by
  unfold resolveHook
  rw [hc]
  by_cases he : h = ""
  · simp [he]
  · rcases hnv with h1 | h1 <;> simp [he, h1]

/-- A verified hook resolves to its canonicalised path. -/
theorem resolveHook_verified (env : Env) (cfg : Config) (h : String)
    (hc : cfg.hook = some h) (hne : h ≠ "") (hex : env.pathExists h = true)
    (hf : env.isFile h = true) :
    resolveHook env cfg = some (env.resolvePath h) := by
  unfold resolveHook
  rw [hc]
  simp [hne, hex, hf]

/-- Leading spaces are discarded by the CSV field reader. -/
theorem skipInitialSpaces_replicate (n : Nat) (cs : List Char) :
    skipInitialSpaces (List.replicate n ' ' ++ cs) = skipInitialSpaces cs := by
  induction n with
  | zero => simp
  | succ k ih => simpa [List.replicate, skipInitialSpaces] using ih

/-! ### Claim theorems -/

/-- C1: for every cycle environment, however the cycle body fails, any
exception it raises is caught at the top of the loop, logged as a runtime
exception, and followed by the fixed `RETRY_DELAY` sleep; the iteration
never exits the process, and the only way an iteration exits at all is
delivery of a termination signal (and then with code 0). -/
theorem cycle_errors_caught_and_only_signal_exits
    (env : Env) (cfg : Config) (hook : Option String) :
    (∀ c, (loopStep env cfg hook).exited = some c →
      c = 0 ∧ ∃ t, env.signalAfter = some t) ∧
    (env.signalAfter = none → ∀ ex,
      (cycleBody env cfg hook).result = .error ex →
      (loopStep env cfg hook).exited = none ∧
      (loopStep env cfg hook).slept = RETRY_DELAY ∧
      LogEvent.error ("Runtime Exception: " ++ excMsg ex) ∈
        (loopStep env cfg hook).logs) := by
  constructor
  · intro c hc
    have h := loopStepAux_exit_characterisation env cfg
      (cycleBody env cfg hook) c (cycleBody_error_exc env cfg hook) hc
    exact ⟨h.1, h.2.imp (fun t ht => ht.1)⟩
  · intro hsig ex hres
    obtain ⟨m, rfl⟩ := cycleBody_error_exc env cfg hook ex hres
    have hstep : loopStep env cfg hook =
        ⟨none, RETRY_DELAY, (cycleBody env cfg hook).outcomes,
          (cycleBody env cfg hook).toolCalls,
          (cycleBody env cfg hook).logs ++
            [.error ("Runtime Exception: " ++ excMsg (.exc m))]⟩ :=
      loopStepAux_error_no_signal env cfg (cycleBody env cfg hook)
        (.exc m) hres rfl hsig
    rw [hstep]
    exact ⟨rfl, rfl, by simp⟩

/-- Witness for C1: with DNS resolution raising and no signal, the
iteration is a `RETRY_DELAY` retry with the runtime exception logged. -/
theorem cycle_errors_caught_and_only_signal_exits_witness :
    (loopStep envDnsDown cfgW none).exited = none ∧
      (loopStep envDnsDown cfgW none).slept = RETRY_DELAY ∧
      LogEvent.error ("Runtime Exception: " ++ excMsg (.exc "gaierror")) ∈
        (loopStep envDnsDown cfgW none).logs :=
  (cycle_errors_caught_and_only_signal_exits envDnsDown cfgW none).2 rfl
    (.exc "gaierror") rfl

/-- C2 counterexample: a tool failure whose stderr is `" boom"` (leading
space, no newline) yields the diagnostic `["boom"]`, which is not the
stderr split into lines (`[" boom"]`): the code strips surrounding
whitespace first. -/
theorem stderr_split_counterexample :
    (envToolFails.runTool
        (buildCmd "a.example.com" "cf" "bob@example.com" none)).exitCode ≠ 0 ∧
      (run_certbot envToolFails "a.example.com" "cf" "bob@example.com"
          none).outcome = .failed ["boom"] ∧
      (run_certbot envToolFails "a.example.com" "cf" "bob@example.com"
          none).outcome ≠
        .failed (specStderrLines
          (envToolFails.runTool
            (buildCmd "a.example.com" "cf" "bob@example.com" none)).stderr) :=
  ⟨by decide, by decide, by decide⟩

/-- C2 (amended): for every invocation with the credential file present:
exit 0 with the "Certificate not yet due" marker in stdout is AlreadyValid;
exit 0 without it is IssuedOrRenewed; nonzero exit is Failed with diagnostic
equal to the tool's stderr stripped of surrounding whitespace and then
split on newline characters. -/
theorem invocation_outcome_classification (env : Env) (f p e : String)
    (hook : Option String) (h : env.pathExists (credsPath p) = true) :
    ∀ r : ToolResult, env.runTool (buildCmd f p e hook) = r →
      (r.exitCode = 0 → containsSub r.stdout markerNotYetDue = true →
        (run_certbot env f p e hook).outcome = .alreadyValid) ∧
      (r.exitCode = 0 → containsSub r.stdout markerNotYetDue = false →
        (run_certbot env f p e hook).outcome = .issuedOrRenewed) ∧
      (r.exitCode ≠ 0 →
        (run_certbot env f p e hook).outcome =
          .failed (pySplit (pyStrip r.stderr) (Char.ofNat 10))) := by
  intro r hr
  refine ⟨?_, ?_, ?_⟩
  · intro h0 hm
    simp [run_certbot, h, subprocessRun, hr, h0, hm]
  · intro h0 hm
    simp [run_certbot, h, subprocessRun, hr, h0, hm]
  · intro h0
    simp [run_certbot, h, subprocessRun, hr, h0, run_certbot.excStderr]

/-- Witness for C2: the failing tool run classifies as Failed with the
stripped-and-split diagnostic. -/
theorem invocation_outcome_classification_witness :
    (run_certbot envToolFails "a.example.com" "cf" "bob@example.com"
        none).outcome = .failed ["boom"] := by
  have h := (invocation_outcome_classification envToolFails "a.example.com"
    "cf" "bob@example.com" none rfl ⟨1, "", " boom"⟩ rfl).2.2 (by decide)
  exact h.trans (by decide)

/-- C3: a cycle over `N` well-formed rows raises nothing, produces exactly
`N` classified attempts, one per row in file order, and each row's outcome
is a function of that row and the environment alone. -/
theorem per_cycle_one_attempt_per_row (env : Env) (hook : Option String)
    (rows : List Row) (h : ∀ r ∈ rows, WellFormedRow r) :
    (processRows env hook rows).result = .ok () ∧
      (processRows env hook rows).outcomes.length = rows.length ∧
      (processRows env hook rows).outcomes =
        rows.map (fun r => (rowRun env hook r).outcome) := by
  have hw := processRows_wf env hook rows h
  exact ⟨hw.1, by rw [hw.2]; simp, hw.2⟩

/-- Witness for C3: a two-row batch yields two outcomes in file order. -/
theorem per_cycle_one_attempt_per_row_witness :
    (processRows envAllOk none
        [[("fqdn", some "a.example.com"), ("dns_provider", some "cf"),
          ("email", some "bob@example.com")],
         [("fqdn", some "b.example.com"), ("dns_provider", some "r53"),
          ("email", some "ops@example.com")]]).outcomes.length = 2 :=
  (per_cycle_one_attempt_per_row envAllOk none
    [[("fqdn", some "a.example.com"), ("dns_provider", some "cf"),
      ("email", some "bob@example.com")],
     [("fqdn", some "b.example.com"), ("dns_provider", some "r53"),
      ("email", some "ops@example.com")]] (by decide)).2.1

/-- C4: a tool failure on job N is contained: job N's outcome is Failed,
the batch result and the outcomes of the following jobs are exactly those
of running the following jobs alone (same inputs, not skipped), and the
iteration does not exit the process. -/
theorem job_failure_contained_and_next_job_unaffected
    (env : Env) (cfg : Config) (hook : Option String) (rowN : Row)
    (rs : List Row) (f p e : String) (hf : rowFields rowN = some (f, p, e))
    (hcred : env.pathExists (credsPath p) = true)
    (hfail : (env.runTool (buildCmd f p e hook)).exitCode ≠ 0) :
    (∃ diag, (run_certbot env f p e hook).outcome = .failed diag) ∧
      (processRows env hook (rowN :: rs)).result =
        (processRows env hook rs).result ∧
      (processRows env hook (rowN :: rs)).outcomes =
        (run_certbot env f p e hook).outcome ::
          (processRows env hook rs).outcomes ∧
      (env.signalAfter = none → (loopStep env cfg hook).exited = none) := by
  refine ⟨?_, ?_, ?_, ?_⟩
  · refine ⟨pySplit (pyStrip (env.runTool (buildCmd f p e hook)).stderr)
      (Char.ofNat 10), ?_⟩
    simp [run_certbot, hcred, subprocessRun, hfail, run_certbot.excStderr]
  · rw [processRows_cons_wf env hook rowN rs f p e hf]
  · rw [processRows_cons_wf env hook rowN rs f p e hf]
  · exact fun hs => loopStep_no_signal_no_exit env cfg hook hs

/-- Witness for C4: with the tool failing, the failing first job still
yields a Failed outcome (contained, not fatal). -/
theorem job_failure_contained_and_next_job_unaffected_witness :
    ∃ diag, (run_certbot envToolFails "a.example.com" "cf"
      "bob@example.com" none).outcome = .failed diag :=
  (job_failure_contained_and_next_job_unaffected envToolFails cfgW none
    [("fqdn", some "a.example.com"), ("dns_provider", some "cf"),
      ("email", some "bob@example.com")]
    [[("fqdn", some "b.example.com"), ("dns_provider", some "r53"),
      ("email", some "ops@example.com")]]
    "a.example.com" "cf" "bob@example.com" (by decide) rfl (by decide)).1

/-- C5: a cycle that starts with the CSV path missing logs the missing-file
error, sleeps exactly the fixed `RETRY_DELAY` (60 seconds, whatever the
configured frequency), runs no job, and does not exit; and any later cycle
in which the file is back (with well-formed rows) processes every row
normally and sleeps the configured frequency. -/
theorem missing_csv_logged_retry_and_resume (cfg : Config)
    (hook : Option String) (env : Env) (ip : String)
    (hsig : env.signalAfter = none)
    (hdns : env.gethostbyname acmeHost = .ok ip)
    (hcsv : env.pathExists cfg.csv = false) :
    ((loopStep env cfg hook).exited = none ∧
      (loopStep env cfg hook).slept = RETRY_DELAY ∧ RETRY_DELAY = 60 ∧
      (loopStep env cfg hook).outcomes = [] ∧
      (loopStep env cfg hook).toolCalls = [] ∧
      csvMissingLog cfg.csv ∈ (loopStep env cfg hook).logs) ∧
    (∀ (env2 : Env) (ip2 : String) (lines : List String),
      env2.signalAfter = none →
      env2.gethostbyname acmeHost = .ok ip2 →
      env2.pathExists cfg.csv = true →
      env2.csvLines = .ok lines →
      (∀ r ∈ parseCsv lines, WellFormedRow r) →
      (loopStep env2 cfg hook).exited = none ∧
      (loopStep env2 cfg hook).slept = cfg.frequency * 60 ∧
      (loopStep env2 cfg hook).outcomes =
        (parseCsv lines).map (fun r => (rowRun env2 hook r).outcome)) := by
  constructor
  · have hcb : cycleBody env cfg hook =
        ⟨.ok .sourceMissing, [], [],
          [cycleStartLog cfg.frequency, csvMissingLog cfg.csv]⟩ := by
      simp [cycleBody, hdns, hcsv]
    have hstep : loopStep env cfg hook =
        ⟨none, RETRY_DELAY, [], [],
          [cycleStartLog cfg.frequency, csvMissingLog cfg.csv]⟩ := by
      have h1 : loopStep env cfg hook =
          loopStepAux env cfg (cycleBody env cfg hook) := rfl
      rw [h1, hcb,
        loopStepAux_ok_no_signal env cfg _ .sourceMissing rfl hsig]
      rfl
    rw [hstep]
    exact ⟨rfl, rfl, rfl, rfl, rfl, by simp⟩
  · intro env2 ip2 lines hsig2 hdns2 hcsv2 hlines hwf
    have hb := processRows_wf env2 hook (parseCsv lines) hwf
    have hres2 : (cycleBody env2 cfg hook).result = .ok .completed := by
      simp [cycleBody, hdns2, hcsv2, hlines, hb.1]
    have houts : (cycleBody env2 cfg hook).outcomes =
        (processRows env2 hook (parseCsv lines)).outcomes := by
      simp [cycleBody, hdns2, hcsv2, hlines, hb.1]
    have hstep2 : loopStep env2 cfg hook =
        ⟨none, sleepSecondsFor cfg .completed,
          (cycleBody env2 cfg hook).outcomes,
          (cycleBody env2 cfg hook).toolCalls,
          (cycleBody env2 cfg hook).logs⟩ :=
      loopStepAux_ok_no_signal env2 cfg _ .completed hres2 hsig2
    refine ⟨by rw [hstep2], by rw [hstep2]; rfl, ?_⟩
    rw [hstep2]
    show (cycleBody env2 cfg hook).outcomes = _
    rw [houts, hb.2]

/-- Witness for C5: the missing-CSV cycle retries after 60 seconds with the
missing-file log line, no job run, no exit. -/
theorem missing_csv_logged_retry_and_resume_witness :
    (loopStep envNoCsv cfgW none).exited = none ∧
      (loopStep envNoCsv cfgW none).slept = RETRY_DELAY ∧ RETRY_DELAY = 60 ∧
      (loopStep envNoCsv cfgW none).outcomes = [] ∧
      (loopStep envNoCsv cfgW none).toolCalls = [] ∧
      csvMissingLog cfgW.csv ∈ (loopStep envNoCsv cfgW none).logs :=
  (missing_csv_logged_retry_and_resume cfgW none envNoCsv "172.65.32.248"
    rfl rfl rfl).1

/-- C6: the credential reference is a pure function of the provider key:
the Cloudflare plugin is chosen exactly when "cloudflare" occurs
case-insensitively in the key (else the RFC2136 plugin), the credential
path is `<secretsDir>/<providerKey>.ini`, and when that path is absent the
job yields CredentialsMissing without raising, invokes no tool, and leaves
the processing of the remaining rows unchanged. -/
theorem credential_resolution_deterministic_and_missing_skips (pk : String) :
    ((pluginFor pk = "cloudflare") ↔
      ∃ pre mid post : List Char, pk.data = pre ++ mid ++ post ∧
        mid.map Char.toLower = "cloudflare".data) ∧
    (pluginFor pk = "cloudflare" ∨ pluginFor pk = "rfc2136") ∧
    credsPath pk = SECRETS_DIR ++ "/" ++ pk ++ ".ini" ∧
    (∀ (env : Env) (f e : String) (hook : Option String),
      env.pathExists (credsPath pk) = false →
      run_certbot env f pk e hook =
        ⟨.credentialsMissing, [],
          [.error ("Missing credentials for " ++ f ++ " at " ++
            credsPath pk)]⟩) ∧
    (∀ (env : Env) (f e : String) (hook : Option String) (row : Row)
      (rs : List Row),
      env.pathExists (credsPath pk) = false →
      rowFields row = some (f, pk, e) →
      (processRows env hook (row :: rs)).outcomes =
        .credentialsMissing :: (processRows env hook rs).outcomes ∧
      (processRows env hook (row :: rs)).toolCalls =
        (processRows env hook rs).toolCalls ∧
      (processRows env hook (row :: rs)).result =
        (processRows env hook rs).result) := by
  refine ⟨pluginFor_eq_cloudflare_iff pk, ?_, rfl, ?_, ?_⟩
  · unfold pluginFor
    by_cases h : containsSub (pyLower pk) "cloudflare" = true
    · left
      simp [h]
    · right
      simp [h]
  · intro env f e hook hmiss
    exact run_certbot_credsMissing env f pk e hook hmiss
  · intro env f e hook row rs hmiss hf
    rw [processRows_cons_wf env hook row rs f pk e hf,
      run_certbot_credsMissing env f pk e hook hmiss]
    exact ⟨rfl, rfl, rfl⟩

/-- Witness for C6: with the credential file for key "cf" absent, the job
yields CredentialsMissing with no tool invocation. -/
theorem credential_resolution_deterministic_and_missing_skips_witness :
    run_certbot envNoCreds "a.example.com" "cf" "bob@example.com" none =
      ⟨.credentialsMissing, [],
        [.error ("Missing credentials for a.example.com at " ++
          credsPath "cf")]⟩ := by
  have h := (credential_resolution_deterministic_and_missing_skips
    "cf").2.2.2.1 envNoCreds "a.example.com" "bob@example.com" none
    (by decide)
  exact h.trans (by decide)

/-- C7: a termination signal arriving strictly inside the pending sleep
makes the iteration log the shutdown message and exit with code 0 after
only the elapsed part of the sleep, never completing it. -/
theorem signal_during_sleep_exits_zero (env : Env) (cfg : Config)
    (hook : Option String) (t : Nat) (hsig : env.signalAfter = some t)
    (hlt : t < pendingSleep env cfg hook) :
    (loopStep env cfg hook).exited = some 0 ∧
      (loopStep env cfg hook).slept = t ∧
      (loopStep env cfg hook).slept < pendingSleep env cfg hook ∧
      shutdownLogEvent ∈ (loopStep env cfg hook).logs := by
  have h := loopStepAux_signal_interrupt env cfg (cycleBody env cfg hook) t
    hsig (cycleBody_error_exc env cfg hook) hlt
  refine ⟨h.1, h.2.1, ?_, h.2.2⟩
  have hs : (loopStep env cfg hook).slept = t := h.2.1
  rw [hs]
  exact hlt

/-- Witness for C7: a signal 5 seconds into the one-hour sleep exits with
code 0 after 5 seconds, with the shutdown message logged. -/
theorem signal_during_sleep_exits_zero_witness :
    (loopStep envSignal cfgW none).exited = some 0 ∧
      (loopStep envSignal cfgW none).slept = 5 ∧
      (loopStep envSignal cfgW none).slept <
        pendingSleep envSignal cfgW none ∧
      shutdownLogEvent ∈ (loopStep envSignal cfgW none).logs :=
  signal_during_sleep_exits_zero envSignal cfgW none 5 rfl (by decide)

/-- C8: the hook is verified once at startup. If the supplied hook path is
missing or not a regular file, no command of any cycle of the whole run
carries a deploy-hook argument; if it is verified, every command of every
cycle ends with the deploy-hook pair invoking the resolved hook path with
that job's domain. -/
theorem deploy_hook_all_or_nothing (cfg : Config) (env0 : Env)
    (envs : List Env) (h : String) (hc : cfg.hook = some h) :
    ((env0.pathExists h = false ∨ env0.isFile h = false) →
      ∀ r ∈ main_service cfg env0 envs, ∀ cmd ∈ r.toolCalls,
        (∃ f p e, cmd = buildCmd f p e none) ∧
        ∀ x, ¬ List.IsSuffix ["--deploy-hook", x] cmd) ∧
    (h ≠ "" → env0.pathExists h = true → env0.isFile h = true →
      ∀ r ∈ main_service cfg env0 envs, ∀ cmd ∈ r.toolCalls,
        ∃ f p e, cmd = buildCmd f p e (some (env0.resolvePath h)) ∧
          List.IsSuffix ["--deploy-hook", env0.resolvePath h ++ " " ++ f]
            cmd) := by
  constructor
  · intro hnv r hr cmd hcmd
    obtain ⟨e', rfl⟩ := main_service_mem cfg env0 envs r hr
    rw [resolveHook_not_verified env0 cfg h hc hnv, loopStep_toolCalls]
      at hcmd
    obtain ⟨f, p, e, rfl⟩ := cycleBody_toolCalls_mem e' cfg none cmd hcmd
    exact ⟨⟨f, p, e, rfl⟩, fun x => buildCmd_none_no_deploy f p e x⟩
  · intro hne hex hf r hr cmd hcmd
    obtain ⟨e', rfl⟩ := main_service_mem cfg env0 envs r hr
    rw [resolveHook_verified env0 cfg h hc hne hex hf, loopStep_toolCalls]
      at hcmd
    obtain ⟨f, p, e, rfl⟩ := cycleBody_toolCalls_mem e' cfg _ cmd hcmd
    refine ⟨f, p, e, rfl, ?_⟩
    rw [buildCmd_some]
    exact ⟨buildCmd f p e none, rfl⟩

/-- Witness for C8: with a verified hook, the one command of a one-cycle
run ends in the deploy-hook pair for its domain. -/
theorem deploy_hook_all_or_nothing_witness :
    ∃ f p e,
      buildCmd "a.example.com" "cf" "bob@example.com"
          (some "/opt/deploy.sh") =
        buildCmd f p e (some (envAllOk.resolvePath "/opt/deploy.sh")) ∧
      List.IsSuffix
        ["--deploy-hook",
          envAllOk.resolvePath "/opt/deploy.sh" ++ " " ++ f]
        (buildCmd "a.example.com" "cf" "bob@example.com"
          (some "/opt/deploy.sh")) :=
  (deploy_hook_all_or_nothing cfgHook envAllOk [envAllOk] "/opt/deploy.sh"
      rfl).2 (by decide) rfl rfl
    (loopStep envAllOk cfgHook (resolveHook envAllOk cfgHook)) (by decide)
    (buildCmd "a.example.com" "cf" "bob@example.com" (some "/opt/deploy.sh"))
    (by decide)

/-- C9 counterexample: whitespace in field values is not tolerated in
general. A trailing space survives into the email field, so the descriptor
differs from the stripped row's; and a leading tab also survives (CPython's
`skipinitialspace` skips only the space character), so even on the leading
side only spaces are tolerated, not whitespace. -/
theorem trailing_whitespace_kept_counterexample :
    (parseCsv ["fqdn,dns_provider,email", "a.com,cf,bob@x.com "]).map
        rowFields ≠
      (parseCsv ["fqdn,dns_provider,email", "a.com,cf,bob@x.com"]).map
        rowFields ∧
    (parseCsv ["fqdn,dns_provider,email", "a.com,cf,bob@x.com "]).map
        rowFields = [some ("a.com", "cf", "bob@x.com ")] ∧
    (parseCsv ["fqdn,dns_provider,email", "a.com,cf,\tb@x.com"]).map
        rowFields ≠
      (parseCsv ["fqdn,dns_provider,email", "a.com,cf,b@x.com"]).map
        rowFields ∧
    (parseCsv ["fqdn,dns_provider,email", "a.com,cf,\tb@x.com"]).map
        rowFields = [some ("a.com", "cf", "\tb@x.com")] :=
  ⟨by decide, by decide, by decide, by decide⟩

/-- C9 (amended): leading space characters (only `' '`, not tabs) in field
values are tolerated: a data row whose fields carry extra leading spaces
parses to the same rows, and hence the same descriptors, as the row without
them. Leading tabs and trailing whitespace, by the counterexample, are
preserved in the field value. -/
theorem leading_spaces_tolerated (header line line' : String)
    (hne : line ≠ "") (hne' : line' ≠ "")
    (hlen : (pySplit line' ',').length = (pySplit line ',').length)
    (hpt : ∀ i, i < (pySplit line ',').length →
      ∃ n, ((pySplit line' ',').getD i "").data =
        List.replicate n ' ' ++ ((pySplit line ',').getD i "").data) :
    parseCsv [header, line'] = parseCsv [header, line] ∧
      (parseCsv [header, line']).map rowFields =
        (parseCsv [header, line]).map rowFields := by
  have hline : parseCsvLine line' = parseCsvLine line := by
    rw [parseCsvLine, parseCsvLine, if_neg hne', if_neg hne]
    apply List.ext_getElem
    · simp [hlen]
    · intro i h1 h2
      simp only [List.getElem_map]
      have hi : i < (pySplit line ',').length := by simpa using h2
      have hi' : i < (pySplit line' ',').length := by simpa using h1
      obtain ⟨n, hn⟩ := hpt i hi
      rw [List.getD_eq_getElem _ _ hi', List.getD_eq_getElem _ _ hi] at hn
      unfold csvField
      rw [hn, skipInitialSpaces_replicate]
  have hp : parseCsv [header, line'] = parseCsv [header, line] := by
    simp only [parseCsv, List.map]
    rw [hline]
  exact ⟨hp, by rw [hp]⟩

/-- Witness for C9: a row with one extra leading space in each field parses
identically to the unpadded row. -/
theorem leading_spaces_tolerated_witness :
    parseCsv ["fqdn,dns_provider,email", " a.com, cf, e@x"] =
      parseCsv ["fqdn,dns_provider,email", "a.com,cf,e@x"] := by
  refine (leading_spaces_tolerated "fqdn,dns_provider,email"
    "a.com,cf,e@x" " a.com, cf, e@x" (by decide) (by decide) (by decide)
    ?_).1
  intro i hi
  rw [show (pySplit "a.com,cf,e@x" ',').length = 3 from by decide] at hi
  interval_cases i
  · exact ⟨1, by decide⟩
  · exact ⟨1, by decide⟩
  · exact ⟨1, by decide⟩

/-- C10: every cycle resolves the fixed ACME hostname before looking at the
CSV file; if that resolution raises, the whole cycle - every job - is
aborted and retried after `RETRY_DELAY`, whatever the filesystem contains:
no outcome, no tool call, and no missing-CSV log, only the caught runtime
exception. -/
theorem dns_check_precedes_csv_check (env : Env) (cfg : Config)
    (hook : Option String) (m : String)
    (hdns : env.gethostbyname acmeHost = .error m)
    (hsig : env.signalAfter = none) :
    (loopStep env cfg hook).exited = none ∧
      (loopStep env cfg hook).slept = RETRY_DELAY ∧
      (loopStep env cfg hook).outcomes = [] ∧
      (loopStep env cfg hook).toolCalls = [] ∧
      (loopStep env cfg hook).logs =
        [cycleStartLog cfg.frequency,
          .error ("Runtime Exception: " ++ m)] := by
  have hcb : cycleBody env cfg hook =
      ⟨.error (.exc m), [], [], [cycleStartLog cfg.frequency]⟩ := by
    simp [cycleBody, hdns]
  have hstep : loopStep env cfg hook =
      ⟨none, RETRY_DELAY, [], [],
        [cycleStartLog cfg.frequency] ++
          [.error ("Runtime Exception: " ++ excMsg (.exc m))]⟩ := by
    have h1 : loopStep env cfg hook =
        loopStepAux env cfg (cycleBody env cfg hook) := rfl
    rw [h1, hcb,
      loopStepAux_error_no_signal env cfg _ (.exc m) rfl rfl hsig]
  rw [hstep]
  exact ⟨rfl, rfl, rfl, rfl, by simp [excMsg]⟩

/-- Witness for C10: with DNS down but every file present, the cycle runs
no job and retries after `RETRY_DELAY` with only the runtime-exception
log. -/
theorem dns_check_precedes_csv_check_witness :
    (loopStep envDnsDown cfgW none).outcomes = [] ∧
      (loopStep envDnsDown cfgW none).toolCalls = [] ∧
      (loopStep envDnsDown cfgW none).slept = RETRY_DELAY :=
  have h := dns_check_precedes_csv_check envDnsDown cfgW none "gaierror"
    rfl rfl
  ⟨h.2.2.1, h.2.2.2.1, h.2.1⟩

end CertbotManager
